import Mathlib

/-!
Verification development for the LLM-service core of the repository:
the provider adapters (`OpenAILLMService`, `GoogleLLMService`,
`QwenLLMService`), their embedded retry wrappers, and the factory
(`get_llm_service`).  Vendor SDK behaviour is abstracted as an explicit
outcome value (or a list of outcomes, one per physical vendor call for
the adapters that retry); everything else is translated directly from
the Python source.
-/

namespace LLM

/-- A single-quote character, used to reproduce the exact Python error
message texts. -/
def sq : String := (Char.ofNat 39).toString

/-- Python whitespace as used by `str.strip()` (ASCII part: space, tab,
newline, carriage return, vertical tab, form feed). -/
def isPyWS (c : Char) : Bool :=
  c == ' ' || c == Char.ofNat 9 || c == Char.ofNat 10 || c == Char.ofNat 13 ||
    c == Char.ofNat 11 || c == Char.ofNat 12

/-- Python `s.strip()`: drop leading and trailing whitespace. -/
def pyStrip (s : String) : String :=
  ⟨((s.data.dropWhile isPyWS).reverse.dropWhile isPyWS).reverse⟩

/-- Python `s[:n]`: the first `n` characters. -/
def pyTake (n : Nat) (s : String) : String :=
  ⟨s.data.take n⟩

/-- Python `s.lower()` (per-character lowercasing; the names compared
in this codebase are ASCII). -/
def pyLower (s : String) : String :=
  ⟨s.data.map Char.toLower⟩

/-- Python truthiness of an optional string (`None` and `""` are falsy). -/
def pyTruthy : Option String → Bool
  | none => false
  | some s => !(s == "")

/-- Whether `sub` occurs at the head of `l`. -/
def listLeadMatch : List Char → List Char → Bool
  | [], _ => true
  | _ :: _, [] => false
  | a :: as, b :: bs => a == b && listLeadMatch as bs

/-- Whether `sub` occurs contiguously anywhere in `l`. -/
def listHasSub (sub : List Char) : List Char → Bool
  | [] => listLeadMatch sub []
  | c :: rest => listLeadMatch sub (c :: rest) || listHasSub sub rest

/-- Python `sub in s` (substring containment). -/
def strHasSub (s sub : String) : Bool :=
  listHasSub sub.data s.data

/-- The string has no leading and no trailing Python whitespace. -/
def trimmedB (s : String) : Bool :=
  (s.data.head?.all fun c => !isPyWS c) && (s.data.getLast?.all fun c => !isPyWS c)

/-- Kinds of Python exceptions raised by the core. -/
inductive ErrKind where
  | valueError
  | connectionError
  | notImplementedError
  | generic
deriving DecidableEq, Repr

/-- A raised Python exception: its kind, its message (`str(e)`), and
optionally the exception it was raised `from`. -/
inductive PyError where
  | base (kind : ErrKind) (msg : String)
  | chained (kind : ErrKind) (msg : String) (cause : PyError)
deriving DecidableEq, Repr

/-- Python `str(e)` for the exception types used here. -/
def errStr : PyError → String
  | .base _ m => m
  | .chained _ m _ => m

/-- `if content: return content.strip()` followed by `return sentinel`:
the shared tail of every adapter operation, where `content` is the
optional textual payload of the vendor response envelope. -/
def extractOrSentinel (content : Option String) (sentinel : String) : String :=
  match content with
  | some t => if t ≠ "" then pyStrip t else sentinel
  | none => sentinel

namespace OpenAILLMService

/-- Construction-time validation of `OpenAILLMService.__init__`:
the key check `if not api_key: raise ValueError(...)` followed by the
`OpenAI(api_key=...)` client construction whose failure (abstracted as
`clientError`) is re-raised as a `ConnectionError`.  Returns the raised
exception, if any. -/
def initError (apiKey : Option String) (clientError : Option String) : Option PyError :=
  if pyTruthy apiKey = false then
    some (.base .valueError "OpenAI API key not provided.")
  else
    clientError.map fun m =>
      .base .connectionError ("Failed to initialize OpenAI client: " ++ m)

/-- `OpenAILLMService._get_model`: explicit preference wins (Python
truthiness), otherwise the fixed default. -/
def getModel (modelPreference : Option String) : String :=
  match modelPreference with
  | some m => if m ≠ "" then m else "gpt-3.5-turbo"
  | none => "gpt-3.5-turbo"

/-- One physical `chat.completions.create` invocation: the model, the
role-tagged messages, and the `max_tokens` argument. -/
structure ChatCall where
  model : String
  messages : List (String × String)
  maxTokens : Nat
deriving DecidableEq, Repr

/-- Outcome of one `chat.completions.create` call: an `APIError`, some
other raised exception, or a completion whose
`choices[0].message.content` is the given optional string (`none`
models missing choices / missing message / `None` content). -/
inductive OAOutcome where
  | apiError (msg : String)
  | otherError (e : PyError)
  | completion (content : Option String)
deriving DecidableEq, Repr

/-- Result of one adapter operation: the physical vendor calls issued
and the returned string or raised exception. -/
structure OAResult where
  calls : List ChatCall
  result : Except PyError String
deriving Repr

/-- `AbstractLLMService._handle_api_error`: re-raise as a generic
`Exception` wrapping `str(error)`. -/
def handleApiError (msg : String) : PyError :=
  .base .generic ("An error occurred with the LLM provider: " ++ msg)

/-- The system message built by `OpenAILLMService.translate`. -/
def translateSystemMessage (sourceLanguage targetLanguage : String) : String :=
  "You are a helpful translation assistant. Translate the following text from " ++
    (if sourceLanguage ≠ "auto" then sourceLanguage else "the detected language") ++
    " to " ++ targetLanguage ++ "."

/-- Shared completion-handling tail of the three OpenAI operations:
return the stripped content when present and truthy, otherwise the
sentinel; an `APIError` goes through `_handle_api_error`, any other
exception is re-raised. -/
def finish (call : ChatCall) (outcome : OAOutcome) (sentinel : String) : OAResult :=
  match outcome with
  | .completion content => ⟨[call], .ok (extractOrSentinel content sentinel)⟩
  | .apiError m => ⟨[call], .error (handleApiError m)⟩
  | .otherError e => ⟨[call], .error e⟩

/-- `OpenAILLMService.translate`. -/
def translate (text targetLanguage sourceLanguage : String)
    (modelPreference : Option String) (outcome : OAOutcome) : OAResult :=
  let model := getModel modelPreference
  let systemMessage := translateSystemMessage sourceLanguage targetLanguage
  let userMessage := text
  finish ⟨model, [("system", systemMessage), ("user", userMessage)], 250⟩ outcome
    "Error: LLM returned no valid translation."

/-- `OpenAILLMService.analyze_text`. -/
def analyzeText (text analysisType : String)
    (modelPreference : Option String) (outcome : OAOutcome) : OAResult :=
  let model := getModel modelPreference
  if analysisType = "summary" then
    finish ⟨model,
        [("system", "You are a helpful assistant. Summarize the following text concisely."),
         ("user", pyTake 8000 text)], 300⟩ outcome
      ("Error: LLM returned no valid " ++ analysisType ++ ".")
  else if analysisType = "keywords" then
    finish ⟨model,
        [("system",
          "You are a helpful assistant. Extract the main keywords from the following text, comma-separated."),
         ("user", pyTake 8000 text)], 300⟩ outcome
      ("Error: LLM returned no valid " ++ analysisType ++ ".")
  else
    ⟨[], .error (.base .notImplementedError
      ("Analysis type " ++ sq ++ analysisType ++ sq ++ " is not supported by OpenAI service."))⟩

/-- `OpenAILLMService.generate_response`. -/
def generateResponse (promptText : String) (context : Option String)
    (modelPreference : Option String) (outcome : OAOutcome) : OAResult :=
  let model := getModel modelPreference
  let systemMessage :=
    "You are an intelligent assistant. Provide a concise and relevant answer to the user" ++
      sq ++ "s query."
  let userMessages : List (String × String) :=
    (if pyTruthy context then
      [("system", "Consider the following context: " ++ pyTake 4000 (context.getD ""))]
     else []) ++ [("user", promptText)]
  finish ⟨model, ("system", systemMessage) :: userMessages, 350⟩ outcome
    "Error: LLM returned no valid response."

end OpenAILLMService

/-- Result of one adapter operation for the retrying adapters: the
returned string or raised exception, together with the number of
physical vendor calls consumed; `starved` records that the supplied
outcome sequence was exhausted while the retry loop was still running
(the loop would have issued yet another physical call). -/
inductive CallResult where
  | ok (value : String) (calls : Nat)
  | raised (e : PyError) (calls : Nat)
  | starved (calls : Nat)
deriving DecidableEq, Repr

namespace GoogleLLMService

/-- Construction-time validation of `GoogleLLMService.__init__`: the
key check, then `genai.configure` whose failure (abstracted as
`configureError`) is re-raised as a `ConnectionError`. -/
def initError (apiKey : Option String) (configureError : Option String) : Option PyError :=
  if pyTruthy apiKey = false then
    some (.base .valueError "Google API key not provided.")
  else
    configureError.map fun m =>
      .base .connectionError ("Failed to configure Google GenAI client: " ++ m)

/-- `GoogleLLMService._get_model_name`. -/
def getModelName (modelPreference : Option String) : String :=
  match modelPreference with
  | some m => if m ≠ "" then m else "gemini-1.5-flash-latest"
  | none => "gemini-1.5-flash-latest"

/-- Outcome of one `model.generate_content` call: a raised exception,
or a response envelope.  `hasText` models `hasattr(response, 'text')`
(together with the response being truthy); `text` is the value of
`response.text` when present; `feedback` models
`getattr(response, 'prompt_feedback', 'N/A')`. -/
inductive GOutcome where
  | err (e : PyError)
  | resp (hasText : Bool) (text : String) (feedback : Option String)
deriving DecidableEq, Repr

/-- The response envelope as returned by the retry wrapper. -/
structure GResp where
  hasText : Bool
  text : String
  feedback : Option String
deriving DecidableEq, Repr

/-- Result of the retry wrapper, counting physical calls consumed. -/
inductive GResult where
  | ok (r : GResp) (calls : Nat)
  | raised (e : PyError) (calls : Nat)
  | starved (calls : Nat)
deriving DecidableEq, Repr

/-- Add `n` physical calls to a wrapper result. -/
def GResult.addCalls : GResult → Nat → GResult
  | .ok r c, n => .ok r (c + n)
  | .raised e c, n => .raised e (c + n)
  | .starved c, n => .starved (c + n)

/-- Number of physical vendor calls a wrapper result accounts for. -/
def GResult.calls : GResult → Nat
  | .ok _ c => c
  | .raised _ c => c
  | .starved c => c

/-- The terminal error of the Google retry wrapper:
`ConnectionError(f"Gemini API call failed after {max_retries + 1}
attempts: {last_exception}") from last_exception`. -/
def gTerminal (maxRetries : Nat) (lastException : PyError) : PyError :=
  .chained .connectionError
    ("Gemini API call failed after " ++ toString (maxRetries + 1) ++ " attempts: " ++
      errStr lastException)
    lastException

/-- The `ValueError` raised (inside the `try` block) when the response
still carries no `text` on the final allowed attempt. -/
def gMissingText (attempts : Nat) (feedback : Option String) : PyError :=
  .base .valueError
    ("Gemini response missing " ++ sq ++ "text" ++ sq ++ " attribute or content after " ++
      toString (attempts + 1) ++ " attempts. Feedback: " ++ feedback.getD "N/A")

/-- The loop body of `GoogleLLMService._generate_content_with_retry`,
consuming one vendor outcome per physical call.  A response with a
`text` attribute is returned as-is; a response without one raises a
`ValueError` when `attempts >= max_retries` (which the `except` clause
catches, increments `attempts` past the budget, and converts to the
terminal `ConnectionError`) and otherwise falls through to the next
loop iteration WITHOUT touching `attempts`; a raised exception
increments `attempts` and either retries or raises the terminal
`ConnectionError`. -/
def retryLoop (maxRetries : Nat) : List GOutcome → Nat → Option PyError → GResult
  | [], _, _ => .starved 0
  | o :: rest, attempts, lastException =>
    match o with
    | .err e =>
      if attempts + 1 > maxRetries then
        .raised (gTerminal maxRetries e) 1
      else
        (retryLoop maxRetries rest (attempts + 1) (some e)).addCalls 1
    | .resp hasText text feedback =>
      if hasText then
        .ok ⟨hasText, text, feedback⟩ 1
      else if attempts ≥ maxRetries then
        .raised (gTerminal maxRetries (gMissingText attempts feedback)) 1
      else
        (retryLoop maxRetries rest attempts lastException).addCalls 1

/-- `GoogleLLMService._generate_content_with_retry` (the model name and
prompt parts do not influence the retry control flow; they are the
payload of every physical call). -/
def generateContentWithRetry (_modelName : String) (_promptParts : List String)
    (maxRetries : Nat) (outcomes : List GOutcome) : GResult :=
  retryLoop maxRetries outcomes 0 none

/-- Shared response-handling tail of the three Google operations:
`if response and response.text: return response.text.strip()` followed
by `return sentinel`. -/
def finish (wrapped : GResult) (sentinel : String) : CallResult :=
  match wrapped with
  | .ok r c => .ok (if r.text ≠ "" then pyStrip r.text else sentinel) c
  | .raised e c => .raised e c
  | .starved c => .starved c

/-- The prompt built by `GoogleLLMService.translate`. -/
def translatePrompt (text targetLanguage sourceLanguage : String) : String :=
  "Translate the following text " ++
    (if sourceLanguage ≠ "" ∧ pyLower sourceLanguage ≠ "auto" then
      "from " ++ sourceLanguage
     else "from the detected language") ++
    " to " ++ targetLanguage ++ ": \"" ++ text ++ "\""

/-- `GoogleLLMService.translate`. -/
def translate (text targetLanguage sourceLanguage : String)
    (modelPreference : Option String) (outcomes : List GOutcome) : CallResult :=
  let modelName := getModelName modelPreference
  finish (generateContentWithRetry modelName [translatePrompt text targetLanguage sourceLanguage] 1 outcomes)
    "Error: Gemini returned no valid translation."

/-- `GEMINI_ANALYSIS_PROMPTS`. -/
def GEMINI_ANALYSIS_PROMPTS : List (String × String) :=
  [("summary", "Summarize the following text concisely: "),
   ("keywords", "Extract the main keywords from the following text, comma-separated: ")]

/-- `GoogleLLMService.analyze_text`. -/
def analyzeText (text analysisType : String)
    (modelPreference : Option String) (outcomes : List GOutcome) : CallResult :=
  let modelName := getModelName modelPreference
  match GEMINI_ANALYSIS_PROMPTS.lookup analysisType with
  | none =>
    .raised (.base .notImplementedError
      ("Analysis type " ++ sq ++ analysisType ++ sq ++
        " is not supported by Google Gemini service or not defined in GEMINI_ANALYSIS_PROMPTS.")) 0
  | some template =>
    finish (generateContentWithRetry modelName [template ++ text] 1 outcomes)
      ("Error: Gemini returned no valid " ++ analysisType ++ ".")

/-- `GoogleLLMService.generate_response`. -/
def generateResponse (promptText : String) (context : Option String)
    (modelPreference : Option String) (outcomes : List GOutcome) : CallResult :=
  let modelName := getModelName modelPreference
  let finalPrompt :=
    (if pyTruthy context then
      "Based on this context: \"" ++ context.getD "" ++ "\"\n\n"
     else "") ++ "Respond to this query: \"" ++ promptText ++ "\""
  finish (generateContentWithRetry modelName [finalPrompt] 1 outcomes)
    "Error: Gemini returned no valid response."

end GoogleLLMService

namespace QwenLLMService

/-- Construction-time validation of `QwenLLMService.__init__`: the key
check, then `dashscope.api_key = self.api_key`; the subsequent
`if not dashscope.api_key` re-check can only fail if the key were
falsy, which the first check already excluded, so it raises nothing. -/
def initError (apiKey : Option String) : Option PyError :=
  if pyTruthy apiKey = false then
    some (.base .valueError "Qwen (Dashscope) API key not provided to service constructor.")
  else
    none

/-- `QwenLLMService._get_model_name`. -/
def getModelName (modelPreference : Option String) : String :=
  match modelPreference with
  | some m => if m ≠ "" then m else "qwen-turbo"
  | none => "qwen-turbo"

/-- Outcome of one `dashscope.Generation.call`: a raised exception, or
a response with its `status_code`, whether `output and output.choices`
is truthy (`hasChoices`), the optional
`output.choices[0].message.content`, and the optional `code` /
`message` attributes used in the failure message. -/
inductive QOutcome where
  | err (e : PyError)
  | resp (statusCode : Nat) (hasChoices : Bool) (content : Option String)
      (code : Option String) (message : Option String)
deriving DecidableEq, Repr

/-- The response as returned by the retry wrapper. -/
structure QResp where
  statusCode : Nat
  hasChoices : Bool
  content : Option String
deriving DecidableEq, Repr

/-- Result of the Qwen retry wrapper, counting physical calls. -/
inductive QResult where
  | ok (r : QResp) (calls : Nat)
  | raised (e : PyError) (calls : Nat)
  | starved (calls : Nat)
deriving DecidableEq, Repr

/-- Add `n` physical calls to a wrapper result. -/
def QResult.addCalls : QResult → Nat → QResult
  | .ok r c, n => .ok r (c + n)
  | .raised e c, n => .raised e (c + n)
  | .starved c, n => .starved (c + n)

/-- Number of physical vendor calls a wrapper result accounts for. -/
def QResult.calls : QResult → Nat
  | .ok _ c => c
  | .raised _ c => c
  | .starved c => c

/-- The failure message built for a non-success Qwen response. -/
def statusMsg (statusCode : Nat) (code message : Option String) : String :=
  "Qwen API call failed with status " ++ toString statusCode ++ ". Code: " ++
    code.getD "N/A" ++ ", Message: " ++ message.getD "N/A"

/-- The terminal error of the Qwen retry wrapper. -/
def qTerminal (maxRetries : Nat) (lastException : PyError) : PyError :=
  .chained .connectionError
    ("Qwen API call failed after " ++ toString (maxRetries + 1) ++ " attempts: " ++
      errStr lastException)
    lastException

/-- The `last_exception` value a failing Qwen outcome records: the
raised exception itself, or a `ValueError` carrying the status
message. -/
def failureCause : QOutcome → PyError
  | .err e => e
  | .resp statusCode _ _ code message => .base .valueError (statusMsg statusCode code message)

/-- Whether one Qwen outcome fails (raises, or is not
`status_code == 200 and output and output.choices`). -/
def failing : QOutcome → Bool
  | .err _ => true
  | .resp statusCode hasChoices _ _ _ => !(statusCode == 200 && hasChoices)

/-- The loop body of `QwenLLMService._call_qwen_with_retry`, consuming
one vendor outcome per physical call.  Unlike the Google wrapper, the
`attempts += 1` sits after the `try/except` block, so every failing
outcome (raised exception or non-success response) consumes one unit
of the budget. -/
def retryLoop (maxRetries : Nat) : List QOutcome → Nat → Option PyError → QResult
  | [], _, _ => .starved 0
  | o :: rest, attempts, _lastException =>
    match o with
    | .err e =>
      if attempts + 1 > maxRetries then
        .raised (qTerminal maxRetries e) 1
      else
        (retryLoop maxRetries rest (attempts + 1) (some e)).addCalls 1
    | .resp statusCode hasChoices content code message =>
      if statusCode == 200 && hasChoices then
        .ok ⟨statusCode, hasChoices, content⟩ 1
      else
        let e := PyError.base .valueError (statusMsg statusCode code message)
        if attempts + 1 > maxRetries then
          .raised (qTerminal maxRetries e) 1
        else
          (retryLoop maxRetries rest (attempts + 1) (some e)).addCalls 1

/-- `QwenLLMService._call_qwen_with_retry` (the model name and message
list do not influence the retry control flow; they are the payload of
every physical call). -/
def callQwenWithRetry (_modelName : String) (_messages : List (String × String))
    (maxRetries : Nat) (outcomes : List QOutcome) : QResult :=
  retryLoop maxRetries outcomes 0 none

/-- Shared response-handling tail of the three Qwen operations:
`if response.output.choices[0].message.content: return ....strip()`
followed by `return sentinel`. -/
def finish (wrapped : QResult) (sentinel : String) : CallResult :=
  match wrapped with
  | .ok r c => .ok (extractOrSentinel r.content sentinel) c
  | .raised e c => .raised e c
  | .starved c => .starved c

/-- The prompt built by `QwenLLMService.translate`. -/
def translatePrompt (text targetLanguage sourceLanguage : String) : String :=
  "Translate the following text " ++
    (if sourceLanguage ≠ "" ∧ pyLower sourceLanguage ≠ "auto" then
      "from " ++ sourceLanguage
     else "from the detected language") ++
    " to " ++ targetLanguage ++
    ". Output only the translated text, without any additional explanations or conversation. Text to translate: \"" ++
    text ++ "\""

/-- `QwenLLMService.translate`. -/
def translate (text targetLanguage sourceLanguage : String)
    (modelPreference : Option String) (outcomes : List QOutcome) : CallResult :=
  let modelName := getModelName modelPreference
  let messages := [("system", "You are a helpful translation assistant."),
                   ("user", translatePrompt text targetLanguage sourceLanguage)]
  finish (callQwenWithRetry modelName messages 1 outcomes)
    "Error: Qwen returned no valid translation."

/-- `QWEN_ANALYSIS_PROMPTS`. -/
def QWEN_ANALYSIS_PROMPTS : List (String × String) :=
  [("summary", "Summarize the following text concisely: "),
   ("keywords", "Extract the main keywords from the following text, comma-separated: ")]

/-- `QwenLLMService.analyze_text`. -/
def analyzeText (text analysisType : String)
    (modelPreference : Option String) (outcomes : List QOutcome) : CallResult :=
  let modelName := getModelName modelPreference
  match QWEN_ANALYSIS_PROMPTS.lookup analysisType with
  | none =>
    .raised (.base .notImplementedError
      ("Analysis type " ++ sq ++ analysisType ++ sq ++
        " is not supported by Qwen service or not defined in QWEN_ANALYSIS_PROMPTS.")) 0
  | some template =>
    let messages := [("system", "You are a helpful text analysis assistant."),
                     ("user", template ++ text)]
    finish (callQwenWithRetry modelName messages 1 outcomes)
      ("Error: Qwen returned no valid " ++ analysisType ++ ".")

/-- `QwenLLMService.generate_response`. -/
def generateResponse (promptText : String) (context : Option String)
    (modelPreference : Option String) (outcomes : List QOutcome) : CallResult :=
  let modelName := getModelName modelPreference
  let userContent :=
    if pyTruthy context then
      "Context: \"" ++ context.getD "" ++ "\"\n\nQuery: \"" ++ promptText ++ "\""
    else promptText
  let messages := [("system", "You are an intelligent and helpful assistant."),
                   ("user", userContent)]
  finish (callQwenWithRetry modelName messages 1 outcomes)
    "Error: Qwen returned no valid response."

end QwenLLMService

/-- The closed set of providers the factory recognizes. -/
inductive ProviderKind where
  | openai
  | google
  | qwen
deriving DecidableEq, Repr

/-- The environment as read by `get_llm_service`: the `LLM_PROVIDER`
selector, the three credential variables, and the abstracted failure
conditions of the two vendor-SDK construction steps (so that
construction-time behaviour is a function of the environment, not of
the network). -/
structure Env where
  llmProvider : Option String
  openaiApiKey : Option String
  googleApiKey : Option String
  qwenApiKey : Option String
  openaiClientError : Option String
  googleConfigureError : Option String
deriving DecidableEq, Repr

/-- Replace the `LLM_PROVIDER` value of an environment. -/
def Env.withProvider (env : Env) (p : Option String) : Env :=
  ⟨p, env.openaiApiKey, env.googleApiKey, env.qwenApiKey,
    env.openaiClientError, env.googleConfigureError⟩

/-- A live adapter instance.  `instanceId` gives each constructed
instance a distinct identity, so that reference equality of the Python
objects is expressible. -/
structure ServiceInstance where
  provider : ProviderKind
  apiKey : String
  instanceId : Nat
deriving DecidableEq, Repr

/-- The module-level mutable state of `llm_factory`: the single-slot
cache `_llm_service_instance` plus bookkeeping (`nextId` for instance
identity, `constructions` counting how many instances were ever
built). -/
structure FactoryState where
  cache : Option ServiceInstance
  nextId : Nat
  constructions : Nat
deriving DecidableEq, Repr

/-- The message of `ValueError(f"Unsupported LLM provider: ...")`. -/
def unsupportedProviderMsg (provider : String) : String :=
  "Unsupported LLM provider: " ++ provider ++ ". Supported providers are " ++
    sq ++ "openai" ++ sq ++ ", " ++ sq ++ "google" ++ sq ++ ", " ++ sq ++ "qwen" ++ sq ++ "."

/-- The message of `ValueError(f"API key for {provider} not found. ...")`. -/
def missingKeyMsg (provider : String) : String :=
  "API key for " ++ provider ++
    " not found. Please set the appropriate environment variable (e.g., OPENAI_API_KEY, GOOGLE_API_KEY, QWEN_API_KEY)."

/-- The credential environment variable the factory reads for each
provider. -/
def credVarName : ProviderKind → String
  | .openai => "OPENAI_API_KEY"
  | .google => "GOOGLE_API_KEY"
  | .qwen => "QWEN_API_KEY"

/-- `service_class(api_key=api_key)`: run the selected constructor
(whose own key check cannot fire, the factory having already
established the key is truthy), then store the new instance in the
cache slot.  A constructor failure propagates and leaves the cache
empty. -/
def constructService (kind : ProviderKind) (key : String) (env : Env)
    (st : FactoryState) : Except PyError ServiceInstance × FactoryState :=
  let ctorError : Option PyError :=
    match kind with
    | .openai => env.openaiClientError.map fun m =>
        .base .connectionError ("Failed to initialize OpenAI client: " ++ m)
    | .google => env.googleConfigureError.map fun m =>
        .base .connectionError ("Failed to configure Google GenAI client: " ++ m)
    | .qwen => none
  match ctorError with
  | some e => (.error e, st)
  | none =>
    let inst : ServiceInstance := ⟨kind, key, st.nextId⟩
    (.ok inst, ⟨some inst, st.nextId + 1, st.constructions + 1⟩)

/-- The `if not api_key: raise ValueError(...)` check followed by the
construction step.  (The trailing `if not service_class` safeguard in
the source is unreachable: every recognized provider sets
`service_class`.) -/
def checkKeyAndBuild (kind : ProviderKind) (provider : String) (apiKey : Option String)
    (env : Env) (st : FactoryState) : Except PyError ServiceInstance × FactoryState :=
  match apiKey with
  | some k =>
    if k = "" then (.error (.base .valueError (missingKeyMsg provider)), st)
    else constructService kind k env st
  | none => (.error (.base .valueError (missingKeyMsg provider)), st)

/-- `get_llm_service`: return the cached instance if the slot is
populated; otherwise resolve `LLM_PROVIDER` (default `"openai"`,
lowercased), dispatch on the closed provider set, validate the
corresponding credential, construct and cache the adapter. -/
def getLlmService (env : Env) (st : FactoryState) :
    Except PyError ServiceInstance × FactoryState :=
  match st.cache with
  | some inst => (.ok inst, st)
  | none =>
    let provider := pyLower (env.llmProvider.getD "openai")
    if provider = "openai" then
      checkKeyAndBuild .openai provider env.openaiApiKey env st
    else if provider = "google" then
      checkKeyAndBuild .google provider env.googleApiKey env st
    else if provider = "qwen" then
      checkKeyAndBuild .qwen provider env.qwenApiKey env st
    else
      (.error (.base .valueError (unsupportedProviderMsg provider)), st)

/-- The provider-name string of each recognized provider kind, as the
factory compares it. -/
def providerName : ProviderKind → String
  | .openai => "openai"
  | .google => "google"
  | .qwen => "qwen"

/-- The credential value the factory reads for each provider kind. -/
def envCred : ProviderKind → Env → Option String
  | .openai, env => env.openaiApiKey
  | .google, env => env.googleApiKey
  | .qwen, env => env.qwenApiKey

/-- A string that is empty or holds at least one non-whitespace
character; equivalently, not a nonempty all-whitespace string. -/
def goodText (t : String) : Prop :=
  t = "" ∨ ∃ c ∈ t.data, isPyWS c = false

namespace OpenAILLMService

/-- The completion content, when textual, is a `goodText`. -/
def outcomeGood : OAOutcome → Prop
  | .completion (some t) => goodText t
  | _ => True

end OpenAILLMService

namespace GoogleLLMService

/-- Every response envelope carrying a `text` attribute carries a
`goodText`. -/
def outcomeGood : GOutcome → Prop
  | .resp true t _ => goodText t
  | _ => True

end GoogleLLMService

namespace QwenLLMService

/-- The message content, when textual, is a `goodText`. -/
def outcomeGood : QOutcome → Prop
  | .resp _ _ (some t) _ _ => goodText t
  | _ => True

end QwenLLMService

/-! Helper lemmas about the Python string primitives. -/

theorem dropWhileHeadFalse (p : Char → Bool) :
    ∀ (l : List Char) (c : Char), (l.dropWhile p).head? = some c → p c = false := by
  intro l
  induction l with
  | nil => intro c h; simp [List.dropWhile] at h
  | cons a rest ih =>
    intro c h
    rw [List.dropWhile_cons] at h
    by_cases hpa : p a
    · rw [if_pos hpa] at h
      exact ih c h
    · rw [if_neg hpa] at h
      simp at h
      subst h
      exact Bool.eq_false_iff.mpr hpa

theorem dropWhileGetLast (p : Char → Bool) :
    ∀ l : List Char, l.dropWhile p = [] ∨ (l.dropWhile p).getLast? = l.getLast? := by
  intro l
  induction l with
  | nil => left; rfl
  | cons a rest ih =>
    by_cases hpa : p a
    · rw [List.dropWhile_cons, if_pos hpa]
      rcases ih with h | h
      · left; exact h
      · match rest with
        | [] => left; rfl
        | b :: rest2 => right; rw [h, List.getLast?_cons_cons]
    · rw [List.dropWhile_cons, if_neg hpa]
      right; rfl

theorem memDropWhile (p : Char → Bool) :
    ∀ (l : List Char) (x : Char), x ∈ l → p x = false → x ∈ l.dropWhile p := by
  intro l
  induction l with
  | nil => intro x hx; cases hx
  | cons a rest ih =>
    intro x hx hpx
    rw [List.dropWhile_cons]
    by_cases hpa : p a
    · rw [if_pos hpa]
      rcases List.mem_cons.mp hx with rfl | hxl
      · rw [hpa] at hpx; cases hpx
      · exact ih x hxl hpx
    · rw [if_neg hpa]; exact hx

theorem pyStrip_data (s : String) :
    (pyStrip s).data = ((s.data.dropWhile isPyWS).reverse.dropWhile isPyWS).reverse := rfl

theorem trimmedB_pyStrip (s : String) : trimmedB (pyStrip s) = true := by
  unfold trimmedB
  rw [Bool.and_eq_true]
  constructor
  · rw [pyStrip_data, List.head?_reverse]
    rcases dropWhileGetLast isPyWS (s.data.dropWhile isPyWS).reverse with h | h
    · rw [h]; rfl
    · rw [h, List.getLast?_reverse]
      cases hh : (s.data.dropWhile isPyWS).head? with
      | none => rfl
      | some c =>
        have := dropWhileHeadFalse isPyWS s.data c hh
        simp [Option.all, this]
  · rw [pyStrip_data, List.getLast?_reverse]
    cases hh : ((s.data.dropWhile isPyWS).reverse.dropWhile isPyWS).head? with
    | none => rfl
    | some c =>
      have := dropWhileHeadFalse isPyWS (s.data.dropWhile isPyWS).reverse c hh
      simp [Option.all, this]

theorem string_mk_eq_empty (l : List Char) (h : (⟨l⟩ : String) = "") : l = [] := by
  have := congrArg String.data h
  simpa using this

theorem pyStrip_ne_empty (s : String) (c : Char) (hc : c ∈ s.data)
    (hw : isPyWS c = false) : pyStrip s ≠ "" := by
  intro h
  have hdata : ((s.data.dropWhile isPyWS).reverse.dropWhile isPyWS).reverse = [] :=
    string_mk_eq_empty _ h
  have hB : (s.data.dropWhile isPyWS).reverse.dropWhile isPyWS = [] :=
    List.reverse_eq_nil_iff.mp hdata
  have hall := List.dropWhile_eq_nil_iff.mp hB
  have hcA : c ∈ s.data.dropWhile isPyWS := memDropWhile isPyWS s.data c hc hw
  have : isPyWS c = true := hall c (List.mem_reverse.mpr hcA)
  rw [this] at hw
  cases hw

theorem extractOrSentinel_trimmed (content : Option String) (sentinel : String)
    (hsent : trimmedB sentinel = true) :
    trimmedB (extractOrSentinel content sentinel) = true := by
  unfold extractOrSentinel
  match content with
  | none => exact hsent
  | some t =>
    by_cases ht : t = ""
    · simp only [ht, ne_eq, not_true_eq_false, if_false]
      exact hsent
    · simp only [ne_eq, ht, not_false_eq_true, if_true]
      exact trimmedB_pyStrip t

theorem extractOrSentinel_ne_empty (content : Option String) (sentinel : String)
    (hsent : sentinel ≠ "") (hgood : ∀ t, content = some t → goodText t) :
    extractOrSentinel content sentinel ≠ "" := by
  unfold extractOrSentinel
  match content with
  | none => exact hsent
  | some t =>
    by_cases ht : t = ""
    · simp only [ht, ne_eq, not_true_eq_false, if_false]
      exact hsent
    · simp only [ne_eq, ht, not_false_eq_true, if_true]
      rcases hgood t rfl with h | ⟨c, hc, hw⟩
      · exact absurd h ht
      · exact pyStrip_ne_empty t c hc hw

theorem listHasSub_append (sub l₂ : List Char) (h : listHasSub sub l₂ = true) :
    ∀ l₁ : List Char, listHasSub sub (l₁ ++ l₂) = true := by
  intro l₁
  induction l₁ with
  | nil => simpa using h
  | cons a rest ih =>
    rw [List.cons_append]
    show (listLeadMatch sub (a :: (rest ++ l₂)) || listHasSub sub (rest ++ l₂)) = true
    rw [Bool.or_eq_true]
    exact Or.inr ih

theorem strHasSub_right (a b sub : String) (h : strHasSub b sub = true) :
    strHasSub (a ++ b) sub = true := by
  unfold strHasSub at h ⊢
  rw [String.data_append]
  exact listHasSub_append sub.data b.data h a.data

theorem sentinelWrap (pre ty : String) (c : Char)
    (hh : pre.data.head? = some c) (hcw : isPyWS c = false) :
    trimmedB (pre ++ ty ++ ".") = true ∧ (pre ++ ty ++ ".") ≠ "" := by
  have hdata : (pre ++ ty ++ ".").data = (pre.data ++ ty.data) ++ [Char.ofNat 46] := by
    rw [String.data_append, String.data_append]
  constructor
  · unfold trimmedB
    rw [hdata, Bool.and_eq_true]
    constructor
    · rw [List.head?_append, List.head?_append, hh]
      simp [Option.all, hcw]
    · rw [List.getLast?_concat]
      rfl
  · intro h
    have : (pre.data ++ ty.data) ++ [Char.ofNat 46] = ([] : List Char) := by
      rw [← hdata, h]
    exact absurd this (by simp)

/-! Helper lemmas about the two retry wrappers. -/

theorem gStepErr (maxRetries attempts : Nat) (e : PyError)
    (rest : List GoogleLLMService.GOutcome) (lastE : Option PyError) :
    GoogleLLMService.retryLoop maxRetries (.err e :: rest) attempts lastE =
      if attempts + 1 > maxRetries then
        .raised (GoogleLLMService.gTerminal maxRetries e) 1
      else
        (GoogleLLMService.retryLoop maxRetries rest (attempts + 1) (some e)).addCalls 1 := rfl

theorem gStepResp (maxRetries attempts : Nat) (hasText : Bool) (text : String)
    (feedback : Option String) (rest : List GoogleLLMService.GOutcome)
    (lastE : Option PyError) :
    GoogleLLMService.retryLoop maxRetries (.resp hasText text feedback :: rest) attempts lastE =
      if hasText then
        .ok ⟨hasText, text, feedback⟩ 1
      else if attempts ≥ maxRetries then
        .raised (GoogleLLMService.gTerminal maxRetries
          (GoogleLLMService.gMissingText attempts feedback)) 1
      else
        (GoogleLLMService.retryLoop maxRetries rest attempts lastE).addCalls 1 := rfl

theorem qStepErr (maxRetries attempts : Nat) (e : PyError)
    (rest : List QwenLLMService.QOutcome) (lastE : Option PyError) :
    QwenLLMService.retryLoop maxRetries (.err e :: rest) attempts lastE =
      if attempts + 1 > maxRetries then
        .raised (QwenLLMService.qTerminal maxRetries e) 1
      else
        (QwenLLMService.retryLoop maxRetries rest (attempts + 1) (some e)).addCalls 1 := rfl

theorem qStepResp (maxRetries attempts statusCode : Nat) (hasChoices : Bool)
    (content code message : Option String) (rest : List QwenLLMService.QOutcome)
    (lastE : Option PyError) :
    QwenLLMService.retryLoop maxRetries
        (.resp statusCode hasChoices content code message :: rest) attempts lastE =
      if statusCode == 200 && hasChoices then
        .ok ⟨statusCode, hasChoices, content⟩ 1
      else
        if attempts + 1 > maxRetries then
          .raised (QwenLLMService.qTerminal maxRetries
            (.base .valueError (QwenLLMService.statusMsg statusCode code message))) 1
        else
          (QwenLLMService.retryLoop maxRetries rest (attempts + 1)
            (some (.base .valueError (QwenLLMService.statusMsg statusCode code message)))).addCalls
            1 := rfl

theorem googleRetryAllErrors (maxRetries : Nat) :
    ∀ (es : List PyError) (attempts : Nat) (lastE : Option PyError) (e : PyError),
      attempts + es.length = maxRetries + 1 → es.getLast? = some e →
      GoogleLLMService.retryLoop maxRetries (es.map .err) attempts lastE =
        .raised (GoogleLLMService.gTerminal maxRetries e) es.length := by
  intro es
  induction es with
  | nil => intro _ _ e _ hlast; simp at hlast
  | cons f fs ih =>
    intro attempts lastE e hlen hlast
    cases fs with
    | nil =>
      have ha : attempts = maxRetries := by simpa using hlen
      have he : f = e := by simpa [List.getLast?] using hlast
      subst he
      subst ha
      rw [List.map_cons, List.map_nil, gStepErr, if_pos (by omega)]
      rfl
    | cons g fs2 =>
      have hlen2 : (attempts + 1) + (g :: fs2).length = maxRetries + 1 := by
        simp only [List.length_cons] at hlen ⊢
        omega
      have hnot : ¬ attempts + 1 > maxRetries := by
        simp only [List.length_cons] at hlen
        omega
      have hlast2 : (g :: fs2).getLast? = some e := by
        rw [← List.getLast?_cons_cons (a := f)]
        exact hlast
      rw [List.map_cons, gStepErr, if_neg hnot, ih (attempts + 1) (some f) e hlen2 hlast2]
      simp [GoogleLLMService.GResult.addCalls]

theorem googleRetryNoTextStarves :
    ∀ k : Nat,
      GoogleLLMService.retryLoop 1 (List.replicate k (.resp false "" none)) 0 none =
        .starved k := by
  intro k
  induction k with
  | zero => rfl
  | succ k ih =>
    rw [List.replicate_succ, gStepResp, if_neg (by simp), if_neg (by omega), ih]
    simp [GoogleLLMService.GResult.addCalls]

theorem googleRetryOkGood (maxRetries : Nat) :
    ∀ (outs : List GoogleLLMService.GOutcome) (attempts : Nat) (lastE : Option PyError)
      (r : GoogleLLMService.GResp) (c : Nat),
      (∀ o ∈ outs, GoogleLLMService.outcomeGood o) →
      GoogleLLMService.retryLoop maxRetries outs attempts lastE = .ok r c →
      goodText r.text := by
  intro outs
  induction outs with
  | nil => intro _ _ r c _ h; simp [GoogleLLMService.retryLoop] at h
  | cons o rest ih =>
    intro attempts lastE r c hg h
    have hgrest : ∀ x ∈ rest, GoogleLLMService.outcomeGood x := by
      intro x hx; exact hg x (List.mem_cons_of_mem o hx)
    cases o with
    | err e =>
      rw [gStepErr] at h
      by_cases hb : attempts + 1 > maxRetries
      · rw [if_pos hb] at h; cases h
      · rw [if_neg hb] at h
        rcases hX : GoogleLLMService.retryLoop maxRetries rest (attempts + 1) (some e)
          with _ | _ | _ <;> rw [hX] at h <;>
          simp [GoogleLLMService.GResult.addCalls] at h
        obtain ⟨rfl, -⟩ := h
        exact ih (attempts + 1) (some e) _ _ hgrest hX
    | resp hasText text fb =>
      rw [gStepResp] at h
      by_cases hT : hasText
      · rw [if_pos hT] at h
        have hr : GoogleLLMService.GResp.mk hasText text fb = r := by
          cases h; rfl
        subst hr
        subst hT
        exact hg _ (List.mem_cons_self _ _)
      · rw [if_neg hT] at h
        by_cases hb : attempts ≥ maxRetries
        · rw [if_pos hb] at h; cases h
        · rw [if_neg hb] at h
          rcases hX : GoogleLLMService.retryLoop maxRetries rest attempts lastE
            with _ | _ | _ <;> rw [hX] at h <;>
            simp [GoogleLLMService.GResult.addCalls] at h
          obtain ⟨rfl, -⟩ := h
          exact ih attempts lastE _ _ hgrest hX

theorem qwenRetryAllFail (maxRetries : Nat) :
    ∀ (os : List QwenLLMService.QOutcome) (attempts : Nat) (lastE : Option PyError)
      (o : QwenLLMService.QOutcome),
      (∀ x ∈ os, QwenLLMService.failing x = true) →
      attempts + os.length = maxRetries + 1 → os.getLast? = some o →
      QwenLLMService.retryLoop maxRetries os attempts lastE =
        .raised (QwenLLMService.qTerminal maxRetries (QwenLLMService.failureCause o))
          os.length := by
  intro os
  induction os with
  | nil => intro _ _ o _ _ hlast; simp at hlast
  | cons f fs ih =>
    intro attempts lastE o hfail hlen hlast
    have hffail : QwenLLMService.failing f = true := hfail f (List.mem_cons_self _ _)
    have hfsfail : ∀ x ∈ fs, QwenLLMService.failing x = true := by
      intro x hx; exact hfail x (List.mem_cons_of_mem f hx)
    cases fs with
    | nil =>
      have ha : attempts = maxRetries := by simpa using hlen
      have he : f = o := by simpa [List.getLast?] using hlast
      subst he
      subst ha
      cases f with
      | err e =>
        rw [qStepErr, if_pos (by omega)]
        rfl
      | resp sc hc content code message =>
        have hcond : (sc == 200 && hc) = false := by
          cases hb : (sc == 200 && hc) <;>
            simp [QwenLLMService.failing, hb] at hffail ⊢
        rw [qStepResp, hcond]
        simp only [Bool.false_eq_true, if_false]
        rw [if_pos (by omega)]
        rfl
    | cons g fs2 =>
      have hlen2 : (attempts + 1) + (g :: fs2).length = maxRetries + 1 := by
        simp only [List.length_cons] at hlen ⊢
        omega
      have hnot : ¬ attempts + 1 > maxRetries := by
        simp only [List.length_cons] at hlen
        omega
      have hlast2 : (g :: fs2).getLast? = some o := by
        rw [← List.getLast?_cons_cons (a := f)]
        exact hlast
      cases f with
      | err e =>
        rw [qStepErr, if_neg hnot,
          ih (attempts + 1) (some e) o hfsfail hlen2 hlast2]
        simp [QwenLLMService.QResult.addCalls]
      | resp sc hc content code message =>
        have hcond : (sc == 200 && hc) = false := by
          cases hb : (sc == 200 && hc) <;>
            simp [QwenLLMService.failing, hb] at hffail ⊢
        rw [qStepResp, hcond]
        simp only [Bool.false_eq_true, if_false]
        rw [if_neg hnot,
          ih (attempts + 1)
            (some (.base .valueError (QwenLLMService.statusMsg sc code message)))
            o hfsfail hlen2 hlast2]
        simp [QwenLLMService.QResult.addCalls]

theorem qwenRetryOkGood (maxRetries : Nat) :
    ∀ (outs : List QwenLLMService.QOutcome) (attempts : Nat) (lastE : Option PyError)
      (r : QwenLLMService.QResp) (c : Nat),
      (∀ o ∈ outs, QwenLLMService.outcomeGood o) →
      QwenLLMService.retryLoop maxRetries outs attempts lastE = .ok r c →
      ∀ t, r.content = some t → goodText t := by
  intro outs
  induction outs with
  | nil => intro _ _ r c _ h; simp [QwenLLMService.retryLoop] at h
  | cons o rest ih =>
    intro attempts lastE r c hg h
    have hgrest : ∀ x ∈ rest, QwenLLMService.outcomeGood x := by
      intro x hx; exact hg x (List.mem_cons_of_mem o hx)
    cases o with
    | err e =>
      rw [qStepErr] at h
      by_cases hb : attempts + 1 > maxRetries
      · rw [if_pos hb] at h; cases h
      · rw [if_neg hb] at h
        rcases hX : QwenLLMService.retryLoop maxRetries rest (attempts + 1) (some e)
          with _ | _ | _ <;> rw [hX] at h <;>
          simp [QwenLLMService.QResult.addCalls] at h
        obtain ⟨rfl, -⟩ := h
        exact ih (attempts + 1) (some e) _ _ hgrest hX
    | resp sc hc content code message =>
      rw [qStepResp] at h
      by_cases hcond : (sc == 200 && hc) = true
      · rw [if_pos hcond] at h
        have hr : QwenLLMService.QResp.mk sc hc content = r := by
          cases h; rfl
        subst hr
        intro t ht
        have hgood := hg _ (List.mem_cons_self _ _)
        cases content with
        | none => cases ht
        | some t0 =>
          cases ht
          simpa [QwenLLMService.outcomeGood] using hgood
      · rw [if_neg hcond] at h
        by_cases hb : attempts + 1 > maxRetries
        · rw [if_pos hb] at h; cases h
        · rw [if_neg hb] at h
          rcases hX : QwenLLMService.retryLoop maxRetries rest (attempts + 1)
              (some (.base .valueError (QwenLLMService.statusMsg sc code message)))
            with _ | _ | _ <;> rw [hX] at h <;>
            simp [QwenLLMService.QResult.addCalls] at h
          obtain ⟨rfl, -⟩ := h
          exact ih (attempts + 1) _ _ _ hgrest hX

/-! Helper lemmas about the factory. -/

theorem getLlmServiceCacheSome (env : Env) (i : ServiceInstance)
    (nextId constructions : Nat) :
    getLlmService env ⟨some i, nextId, constructions⟩ =
      (.ok i, ⟨some i, nextId, constructions⟩) := rfl

theorem getLlmServiceCacheNone (env : Env) (nextId constructions : Nat) :
    getLlmService env ⟨none, nextId, constructions⟩ =
      (if pyLower (env.llmProvider.getD "openai") = "openai" then
        checkKeyAndBuild .openai (pyLower (env.llmProvider.getD "openai"))
          env.openaiApiKey env ⟨none, nextId, constructions⟩
      else if pyLower (env.llmProvider.getD "openai") = "google" then
        checkKeyAndBuild .google (pyLower (env.llmProvider.getD "openai"))
          env.googleApiKey env ⟨none, nextId, constructions⟩
      else if pyLower (env.llmProvider.getD "openai") = "qwen" then
        checkKeyAndBuild .qwen (pyLower (env.llmProvider.getD "openai"))
          env.qwenApiKey env ⟨none, nextId, constructions⟩
      else
        (.error (.base .valueError
          (unsupportedProviderMsg (pyLower (env.llmProvider.getD "openai")))),
          ⟨none, nextId, constructions⟩)) := rfl

theorem checkKeyAndBuildKeySome (kind : ProviderKind) (provider k : String)
    (env : Env) (st : FactoryState) :
    checkKeyAndBuild kind provider (some k) env st =
      (if k = "" then (.error (.base .valueError (missingKeyMsg provider)), st)
       else constructService kind k env st) := rfl

theorem checkKeyAndBuildKeyNone (kind : ProviderKind) (provider : String)
    (env : Env) (st : FactoryState) :
    checkKeyAndBuild kind provider none env st =
      (.error (.base .valueError (missingKeyMsg provider)), st) := rfl

theorem checkKeyAndBuildOkCache (kind : ProviderKind) (provider : String)
    (apiKey : Option String) (env : Env) (st st1 : FactoryState) (inst : ServiceInstance)
    (h : checkKeyAndBuild kind provider apiKey env st = (.ok inst, st1)) :
    st1.cache = some inst := by
  cases apiKey with
  | none => rw [checkKeyAndBuildKeyNone] at h; simp at h
  | some k =>
    rw [checkKeyAndBuildKeySome] at h
    by_cases hk : k = ""
    · rw [if_pos hk] at h; simp at h
    · rw [if_neg hk] at h
      unfold constructService at h
      cases kind <;> simp only at h
      · cases henv : env.openaiClientError <;> rw [henv] at h <;> simp at h
        obtain ⟨h1, h2⟩ := h
        subst h2
        subst h1
        rfl
      · cases henv : env.googleConfigureError <;> rw [henv] at h <;> simp at h
        obtain ⟨h1, h2⟩ := h
        subst h2
        subst h1
        rfl
      · simp at h
        obtain ⟨h1, h2⟩ := h
        subst h2
        subst h1
        rfl

/-! The claims. -/

/-- C4: while configuration is unchanged and the cache slot has not
been cleared, every factory call after a first successful one returns
the identical adapter instance (same `instanceId`, hence reference
identity) and leaves the factory state untouched (no reconstruction,
no re-validation: `constructions` and `nextId` do not change); the
single `Option`-typed slot holds at most one live instance. -/
theorem c4_factory_returns_cached_instance (env : Env) (st st1 : FactoryState)
    (inst : ServiceInstance) (h : getLlmService env st = (.ok inst, st1)) :
    st1.cache = some inst ∧ getLlmService env st1 = (.ok inst, st1) := by
  have hcache : st1.cache = some inst := by
    obtain ⟨cache, nextId, constructions⟩ := st
    cases cache with
    | some i =>
      rw [getLlmServiceCacheSome] at h
      simp at h
      obtain ⟨h1, h2⟩ := h
      subst h2
      subst h1
      rfl
    | none =>
      rw [getLlmServiceCacheNone] at h
      split at h
      · exact checkKeyAndBuildOkCache _ _ _ _ _ _ _ h
      · split at h
        · exact checkKeyAndBuildOkCache _ _ _ _ _ _ _ h
        · split at h
          · exact checkKeyAndBuildOkCache _ _ _ _ _ _ _ h
          · simp at h
  refine ⟨hcache, ?_⟩
  obtain ⟨cache1, nextId1, constructions1⟩ := st1
  simp only at hcache
  subst hcache
  rw [getLlmServiceCacheSome]

/-- Witness for C4 at a concrete environment and an empty cache. -/
theorem c4_witness :
    getLlmService ⟨some "openai", some "k", none, none, none, none⟩ ⟨none, 0, 0⟩ =
      (.ok ⟨.openai, "k", 0⟩, ⟨some ⟨.openai, "k", 0⟩, 1, 1⟩) ∧
    (⟨some ⟨.openai, "k", 0⟩, 1, 1⟩ : FactoryState).cache = some ⟨.openai, "k", 0⟩ ∧
    getLlmService ⟨some "openai", some "k", none, none, none, none⟩
        ⟨some ⟨.openai, "k", 0⟩, 1, 1⟩ =
      (.ok ⟨.openai, "k", 0⟩, ⟨some ⟨.openai, "k", 0⟩, 1, 1⟩) := by
  refine ⟨rfl, ?_⟩
  have := c4_factory_returns_cached_instance
    ⟨some "openai", some "k", none, none, none, none⟩ ⟨none, 0, 0⟩
    ⟨some ⟨.openai, "k", 0⟩, 1, 1⟩ ⟨.openai, "k", 0⟩ rfl
  exact this

/-- C3: for every provider adapter and every `analysis_type` outside
the supported set `{"summary", "keywords"}`, `analyze_text` raises
`NotImplementedError` immediately and performs zero vendor calls (the
OpenAI result has an empty call list; the Google and Qwen results carry
call count 0), independently of whatever the vendor would have
answered. -/
theorem c3_analyze_unsupported_zero_calls
    (text analysisType : String) (modelPreference : Option String)
    (oaOutcome : OpenAILLMService.OAOutcome)
    (gOutcomes : List GoogleLLMService.GOutcome)
    (qOutcomes : List QwenLLMService.QOutcome)
    (h1 : analysisType ≠ "summary") (h2 : analysisType ≠ "keywords") :
    OpenAILLMService.analyzeText text analysisType modelPreference oaOutcome =
      ⟨[], .error (.base .notImplementedError
        ("Analysis type " ++ sq ++ analysisType ++ sq ++
          " is not supported by OpenAI service."))⟩ ∧
    GoogleLLMService.analyzeText text analysisType modelPreference gOutcomes =
      .raised (.base .notImplementedError
        ("Analysis type " ++ sq ++ analysisType ++ sq ++
          " is not supported by Google Gemini service or not defined in GEMINI_ANALYSIS_PROMPTS.")) 0 ∧
    QwenLLMService.analyzeText text analysisType modelPreference qOutcomes =
      .raised (.base .notImplementedError
        ("Analysis type " ++ sq ++ analysisType ++ sq ++
          " is not supported by Qwen service or not defined in QWEN_ANALYSIS_PROMPTS.")) 0 := by
  refine ⟨?_, ?_, ?_⟩
  · simp [OpenAILLMService.analyzeText, h1, h2]
  · have b1 : (analysisType == "summary") = false := beq_eq_false_iff_ne.mpr h1
    have b2 : (analysisType == "keywords") = false := beq_eq_false_iff_ne.mpr h2
    have hl : GoogleLLMService.GEMINI_ANALYSIS_PROMPTS.lookup analysisType = none := by
      simp [GoogleLLMService.GEMINI_ANALYSIS_PROMPTS, List.lookup, b1, b2]
    simp [GoogleLLMService.analyzeText, hl]
  · have b1 : (analysisType == "summary") = false := beq_eq_false_iff_ne.mpr h1
    have b2 : (analysisType == "keywords") = false := beq_eq_false_iff_ne.mpr h2
    have hl : QwenLLMService.QWEN_ANALYSIS_PROMPTS.lookup analysisType = none := by
      simp [QwenLLMService.QWEN_ANALYSIS_PROMPTS, List.lookup, b1, b2]
    simp [QwenLLMService.analyzeText, hl]

/-- Witness for C3 at `analysis_type = "sentiment"`. -/
theorem c3_witness :
    ("sentiment" : String) ≠ "summary" ∧ ("sentiment" : String) ≠ "keywords" ∧
    (OpenAILLMService.analyzeText "doc" "sentiment" none (.completion (some "x")) =
      ⟨[], .error (.base .notImplementedError
        ("Analysis type " ++ sq ++ "sentiment" ++ sq ++
          " is not supported by OpenAI service."))⟩ ∧
    GoogleLLMService.analyzeText "doc" "sentiment" none [] =
      .raised (.base .notImplementedError
        ("Analysis type " ++ sq ++ "sentiment" ++ sq ++
          " is not supported by Google Gemini service or not defined in GEMINI_ANALYSIS_PROMPTS.")) 0 ∧
    QwenLLMService.analyzeText "doc" "sentiment" none [] =
      .raised (.base .notImplementedError
        ("Analysis type " ++ sq ++ "sentiment" ++ sq ++
          " is not supported by Qwen service or not defined in QWEN_ANALYSIS_PROMPTS.")) 0) :=
  ⟨by decide, by decide,
    c3_analyze_unsupported_zero_calls "doc" "sentiment" none (.completion (some "x")) [] []
      (by decide) (by decide)⟩

/-- C5: with an empty cache slot, a configured provider name whose
lowercase form is outside the closed set `{openai, google, qwen}` makes
the factory raise `ValueError` ("Unsupported LLM provider: ...") and
leave the state untouched (no silent fallback, nothing constructed);
and an absent `LLM_PROVIDER` behaves exactly as the default
`"openai"`. -/
theorem c5_unknown_provider_error_and_default
    (env : Env) (nextId constructions : Nat)
    (h1 : pyLower (env.llmProvider.getD "openai") ≠ "openai")
    (h2 : pyLower (env.llmProvider.getD "openai") ≠ "google")
    (h3 : pyLower (env.llmProvider.getD "openai") ≠ "qwen") :
    getLlmService env ⟨none, nextId, constructions⟩ =
      (.error (.base .valueError
        (unsupportedProviderMsg (pyLower (env.llmProvider.getD "openai")))),
        ⟨none, nextId, constructions⟩) ∧
    ∀ (env2 : Env) (st : FactoryState), env2.llmProvider = none →
      getLlmService env2 st = getLlmService (env2.withProvider (some "openai")) st := by
  constructor
  · rw [getLlmServiceCacheNone, if_neg h1, if_neg h2, if_neg h3]
  · intro env2 st hnone
    obtain ⟨lp, k1, k2, k3, e1, e2⟩ := env2
    simp only at hnone
    subst hnone
    rfl

/-- Witness for C5 at provider name `"azure"`. -/
theorem c5_witness :
    pyLower ((⟨some "azure", some "k", none, none, none, none⟩ : Env).llmProvider.getD
      "openai") ≠ "openai" ∧
    getLlmService ⟨some "azure", some "k", none, none, none, none⟩ ⟨none, 0, 0⟩ =
      (.error (.base .valueError (unsupportedProviderMsg "azure")), ⟨none, 0, 0⟩) :=
  ⟨by decide,
    (c5_unknown_provider_error_and_default
      ⟨some "azure", some "k", none, none, none, none⟩ 0 0
      (by decide) (by decide) (by decide)).1⟩

/-- C6: with an empty cache slot, a selected provider in the closed set
whose credential is missing or empty makes the factory raise
`ValueError` deterministically, with a message that names the expected
environment variable, with the state untouched and nothing constructed
(so no network is touched: the result does not depend on the abstract
vendor-SDK failure conditions in `env`); and each adapter constructor
likewise rejects a falsy key synchronously. -/
theorem c6_missing_credential_config_error (env : Env) (nextId constructions : Nat)
    (kind : ProviderKind)
    (hp : pyLower (env.llmProvider.getD "openai") = providerName kind)
    (hk : pyTruthy (envCred kind env) = false) :
    getLlmService env ⟨none, nextId, constructions⟩ =
      (.error (.base .valueError (missingKeyMsg (providerName kind))),
        ⟨none, nextId, constructions⟩) ∧
    strHasSub (missingKeyMsg (providerName kind)) (credVarName kind) = true ∧
    (∀ apiKey clientError, pyTruthy apiKey = false →
      OpenAILLMService.initError apiKey clientError =
        some (.base .valueError "OpenAI API key not provided.")) ∧
    (∀ apiKey configureError, pyTruthy apiKey = false →
      GoogleLLMService.initError apiKey configureError =
        some (.base .valueError "Google API key not provided.")) ∧
    (∀ apiKey, pyTruthy apiKey = false →
      QwenLLMService.initError apiKey =
        some (.base .valueError
          "Qwen (Dashscope) API key not provided to service constructor.")) := by
  refine ⟨?_, ?_, ?_, ?_, ?_⟩
  · have hkey : ∀ (k : ProviderKind) (cred : Option String) (st : FactoryState),
        pyTruthy cred = false →
        checkKeyAndBuild k (providerName kind) cred env st =
          (.error (.base .valueError (missingKeyMsg (providerName kind))), st) := by
      intro k cred st hcred
      cases cred with
      | none => rw [checkKeyAndBuildKeyNone]
      | some c =>
        have hc : c = "" := by simpa [pyTruthy] using hcred
        rw [checkKeyAndBuildKeySome, if_pos hc]
    cases kind with
    | openai =>
      rw [getLlmServiceCacheNone, hp, if_pos (by decide)]
      exact hkey _ _ _ hk
    | google =>
      rw [getLlmServiceCacheNone, hp, if_neg (by decide), if_pos (by decide)]
      exact hkey _ _ _ hk
    | qwen =>
      rw [getLlmServiceCacheNone, hp, if_neg (by decide), if_neg (by decide),
        if_pos (by decide)]
      exact hkey _ _ _ hk
  · cases kind <;> decide
  · intro apiKey clientError h
    simp [OpenAILLMService.initError, h]
  · intro apiKey configureError h
    simp [GoogleLLMService.initError, h]
  · intro apiKey h
    simp [QwenLLMService.initError, h]

/-- Witness for C6: provider `google`, credential absent, with both
abstract vendor-SDK failure conditions set (the error is raised before
either could matter). -/
theorem c6_witness :
    pyLower ((⟨some "google", some "other", none, some "q", some "down",
      some "down"⟩ : Env).llmProvider.getD "openai") = providerName .google ∧
    pyTruthy (envCred .google ⟨some "google", some "other", none, some "q",
      some "down", some "down"⟩) = false ∧
    getLlmService ⟨some "google", some "other", none, some "q", some "down",
        some "down"⟩ ⟨none, 5, 7⟩ =
      (.error (.base .valueError (missingKeyMsg "google")), ⟨none, 5, 7⟩) ∧
    strHasSub (missingKeyMsg "google") (credVarName .google) = true :=
  ⟨by decide, by decide,
    (c6_missing_credential_config_error
      ⟨some "google", some "other", none, some "q", some "down", some "down"⟩ 5 7 .google
      (by decide) (by decide)).1,
    (c6_missing_credential_config_error
      ⟨some "google", some "other", none, some "q", some "down", some "down"⟩ 5 7 .google
      (by decide) (by decide)).2.1⟩

/-- C10: provider-name matching in the factory is case-insensitive:
the factory behaves identically for any two configured provider names
with the same lowercase form (in particular, for any name differing
from `"openai"`, `"google"` or `"qwen"` only in letter case, it selects
the same adapter as for the lowercase name). -/
theorem c10_provider_matching_case_insensitive (p q : String) (env : Env)
    (st : FactoryState) (h : pyLower p = pyLower q) :
    getLlmService (env.withProvider (some p)) st =
      getLlmService (env.withProvider (some q)) st := by
  obtain ⟨lp, k1, k2, k3, e1, e2⟩ := env
  obtain ⟨cache, nextId, constructions⟩ := st
  cases cache with
  | some i => rfl
  | none =>
    rw [getLlmServiceCacheNone, getLlmServiceCacheNone]
    simp only [Env.withProvider, Option.getD_some]
    rw [h]
    rfl

/-- Witness for C10 at `"OpenAI"` vs `"openai"`. -/
theorem c10_witness :
    pyLower "OpenAI" = pyLower "openai" ∧
    getLlmService ((⟨none, some "k", none, none, none, none⟩ : Env).withProvider
        (some "OpenAI")) ⟨none, 0, 0⟩ =
      getLlmService ((⟨none, some "k", none, none, none, none⟩ : Env).withProvider
        (some "openai")) ⟨none, 0, 0⟩ :=
  ⟨by decide,
    c10_provider_matching_case_insensitive "OpenAI" "openai"
      ⟨none, some "k", none, none, none, none⟩ ⟨none, 0, 0⟩ (by decide)⟩

/-- C1 (amended): for the Google and Qwen retry wrappers with retry
budget `max_retries = N`, a vendor call that fails on every attempt
(by raising, or — for Qwen — by reporting a failure status) performs
exactly `N + 1` physical invocations, after which a single terminal
`ConnectionError` is raised that wraps the last-seen cause and reports
`N + 1` attempts in its message.  The OpenAI adapter has no retry
wrapper: a failing vendor call performs exactly one physical
invocation and re-raises through `_handle_api_error`. -/
theorem c1_retry_invocation_counts (n : Nat)
    (modelName : String) (promptParts : List String)
    (messages : List (String × String))
    (gErrors : List PyError) (gLast : PyError)
    (qOutcomes : List QwenLLMService.QOutcome) (qLast : QwenLLMService.QOutcome)
    (text targetLanguage sourceLanguage errMsg : String)
    (modelPreference : Option String)
    (hgl : gErrors.length = n + 1) (hglast : gErrors.getLast? = some gLast)
    (hql : qOutcomes.length = n + 1)
    (hqf : ∀ o ∈ qOutcomes, QwenLLMService.failing o = true)
    (hqlast : qOutcomes.getLast? = some qLast) :
    GoogleLLMService.generateContentWithRetry modelName promptParts n (gErrors.map .err) =
      .raised (GoogleLLMService.gTerminal n gLast) (n + 1) ∧
    QwenLLMService.callQwenWithRetry modelName messages n qOutcomes =
      .raised (QwenLLMService.qTerminal n (QwenLLMService.failureCause qLast)) (n + 1) ∧
    (OpenAILLMService.translate text targetLanguage sourceLanguage modelPreference
        (.apiError errMsg)).calls.length = 1 ∧
    (OpenAILLMService.translate text targetLanguage sourceLanguage modelPreference
        (.apiError errMsg)).result = .error (OpenAILLMService.handleApiError errMsg) := by
  refine ⟨?_, ?_, rfl, rfl⟩
  · have h := googleRetryAllErrors n gErrors 0 none gLast (by omega) hglast
    rw [hgl] at h
    exact h
  · have h := qwenRetryAllFail n qOutcomes 0 none qLast hqf (by omega) hqlast
    rw [hql] at h
    exact h

/-- Witness for C1 (amended) with `N = 1` and two failing attempts per
wrapper. -/
theorem c1_witness :
    ([PyError.base .generic "boom1", PyError.base .generic "boom2"].length = 1 + 1) ∧
    ([PyError.base .generic "boom1", PyError.base .generic "boom2"].getLast? =
      some (.base .generic "boom2")) ∧
    (∀ o ∈ [QwenLLMService.QOutcome.err (.base .generic "q1"),
        QwenLLMService.QOutcome.resp 500 false none (some "X") (some "bad")],
      QwenLLMService.failing o = true) ∧
    GoogleLLMService.generateContentWithRetry "gemini-1.5-flash-latest" ["p"] 1
        ([PyError.base .generic "boom1", PyError.base .generic "boom2"].map .err) =
      .raised (GoogleLLMService.gTerminal 1 (.base .generic "boom2")) (1 + 1) ∧
    QwenLLMService.callQwenWithRetry "qwen-turbo" [("user", "hi")] 1
        [QwenLLMService.QOutcome.err (.base .generic "q1"),
         QwenLLMService.QOutcome.resp 500 false none (some "X") (some "bad")] =
      .raised (QwenLLMService.qTerminal 1 (QwenLLMService.failureCause
        (QwenLLMService.QOutcome.resp 500 false none (some "X") (some "bad")))) (1 + 1) ∧
    (OpenAILLMService.translate "Hello" "French" "auto" none
        (.apiError "boom")).calls.length = 1 := by
  have h := c1_retry_invocation_counts 1 "gemini-1.5-flash-latest" ["p"]
    [("user", "hi")]
    [PyError.base .generic "boom1", PyError.base .generic "boom2"]
    (.base .generic "boom2")
    [QwenLLMService.QOutcome.err (.base .generic "q1"),
     QwenLLMService.QOutcome.resp 500 false none (some "X") (some "bad")]
    (QwenLLMService.QOutcome.resp 500 false none (some "X") (some "bad"))
    "Hello" "French" "auto" "boom" none
    (by decide) (by decide) (by decide) (by decide) (by decide)
  exact ⟨by decide, by decide, by decide, h.1, h.2.1, h.2.2.1⟩

/-- C1 counterexample: the claim as stated also covers the OpenAI
adapter, but OpenAI has no retry loop.  With retry budget `N = 1` the
claim predicts `N + 1 = 2` physical invocations for a vendor call that
fails on every attempt; the OpenAI adapter performs exactly 1, and the
error it raises carries no attempt count in its message. -/
theorem c1_counterexample :
    (OpenAILLMService.translate "Hello" "French" "auto" none
        (.apiError "boom")).calls.length = 1 ∧
    (1 : Nat) ≠ 1 + 1 ∧
    strHasSub (errStr (OpenAILLMService.handleApiError "boom")) "attempt" = false :=
  ⟨rfl, by decide, by decide⟩

/-- C2 (code bug in the Google wrapper): the claim says the retry
wrapper performs at most `max_retries + 1` physical calls for every
outcome sequence, including well-formed responses carrying no usable
text.  The Google loop does not increment `attempts` on a no-text
response before the final attempt, so with `max_retries = 1` the
sequence (no-text response, raised error, raised error) consumes 3
physical calls, and a vendor that keeps returning no-text responses
keeps the loop running after `k` physical calls for every `k`. -/
theorem c2_google_budget_exceeded :
    (GoogleLLMService.generateContentWithRetry "gemini-1.5-flash-latest" ["p"] 1
      [.resp false "" none, .err (.base .generic "boom"), .err (.base .generic "boom")]).calls
        = 3 ∧
    1 + 1 < 3 ∧
    ∀ k : Nat,
      GoogleLLMService.generateContentWithRetry "gemini-1.5-flash-latest" ["p"] 1
        (List.replicate k (.resp false "" none)) = .starved k := by
  refine ⟨rfl, by decide, ?_⟩
  intro k
  exact googleRetryNoTextStarves k

theorem oaFinishSpec (call : OpenAILLMService.ChatCall) (outcome : OpenAILLMService.OAOutcome)
    (sent r : String) (hs1 : trimmedB sent = true) (hs2 : sent ≠ "")
    (hg : OpenAILLMService.outcomeGood outcome)
    (h : (OpenAILLMService.finish call outcome sent).result = .ok r) :
    trimmedB r = true ∧ r ≠ "" := by
  cases outcome with
  | apiError m => simp [OpenAILLMService.finish] at h
  | otherError e => simp [OpenAILLMService.finish] at h
  | completion content =>
    simp [OpenAILLMService.finish] at h
    subst h
    refine ⟨extractOrSentinel_trimmed content sent hs1, ?_⟩
    refine extractOrSentinel_ne_empty content sent hs2 ?_
    intro t ht
    subst ht
    exact hg

theorem gFinishSpec (wrapped : GoogleLLMService.GResult) (sent r : String) (c : Nat)
    (hs1 : trimmedB sent = true) (hs2 : sent ≠ "")
    (hgood : ∀ rr c0, wrapped = .ok rr c0 → goodText rr.text)
    (h : GoogleLLMService.finish wrapped sent = .ok r c) :
    trimmedB r = true ∧ r ≠ "" := by
  cases wrapped with
  | ok rr c0 =>
    simp [GoogleLLMService.finish] at h
    obtain ⟨hr, -⟩ := h
    have hg := hgood rr c0 rfl
    have heq : (if rr.text = "" then sent else pyStrip rr.text) =
        extractOrSentinel (some rr.text) sent := by
      by_cases ht : rr.text = "" <;> simp [extractOrSentinel, ht]
    rw [heq] at hr
    subst hr
    refine ⟨extractOrSentinel_trimmed _ sent hs1, ?_⟩
    refine extractOrSentinel_ne_empty _ sent hs2 ?_
    intro t ht
    cases ht
    exact hg
  | raised e c0 => simp [GoogleLLMService.finish] at h
  | starved c0 => simp [GoogleLLMService.finish] at h

theorem qFinishSpec (wrapped : QwenLLMService.QResult) (sent r : String) (c : Nat)
    (hs1 : trimmedB sent = true) (hs2 : sent ≠ "")
    (hgood : ∀ rr c0, wrapped = .ok rr c0 → ∀ t, rr.content = some t → goodText t)
    (h : QwenLLMService.finish wrapped sent = .ok r c) :
    trimmedB r = true ∧ r ≠ "" := by
  cases wrapped with
  | ok rr c0 =>
    simp [QwenLLMService.finish] at h
    obtain ⟨hr, -⟩ := h
    subst hr
    refine ⟨extractOrSentinel_trimmed _ sent hs1, ?_⟩
    refine extractOrSentinel_ne_empty _ sent hs2 ?_
    exact hgood rr c0 rfl
  | raised e c0 => simp [QwenLLMService.finish] at h
  | starved c0 => simp [QwenLLMService.finish] at h

/-- C7 (amended): for every provider adapter and every operation, every
string returned on success has no leading or trailing whitespace; and
it is non-empty provided the vendor never answers with a nonempty
all-whitespace text (the sentinels and stripped good texts are
non-empty; the one exception, which falsifies the original claim, is a
vendor text that is nonempty but consists wholly of whitespace — it is
truthy, so it is stripped to the empty string and returned). -/
theorem c7_success_strings_trimmed :
    (∀ text targetLanguage sourceLanguage modelPreference outcome r,
      OpenAILLMService.outcomeGood outcome →
      (OpenAILLMService.translate text targetLanguage sourceLanguage modelPreference
          outcome).result = .ok r →
      trimmedB r = true ∧ r ≠ "") ∧
    (∀ text analysisType modelPreference outcome r,
      OpenAILLMService.outcomeGood outcome →
      (OpenAILLMService.analyzeText text analysisType modelPreference outcome).result =
        .ok r →
      trimmedB r = true ∧ r ≠ "") ∧
    (∀ promptText context modelPreference outcome r,
      OpenAILLMService.outcomeGood outcome →
      (OpenAILLMService.generateResponse promptText context modelPreference
          outcome).result = .ok r →
      trimmedB r = true ∧ r ≠ "") ∧
    (∀ text targetLanguage sourceLanguage modelPreference outs r c,
      (∀ o ∈ outs, GoogleLLMService.outcomeGood o) →
      GoogleLLMService.translate text targetLanguage sourceLanguage modelPreference
          outs = .ok r c →
      trimmedB r = true ∧ r ≠ "") ∧
    (∀ text analysisType modelPreference outs r c,
      (∀ o ∈ outs, GoogleLLMService.outcomeGood o) →
      GoogleLLMService.analyzeText text analysisType modelPreference outs = .ok r c →
      trimmedB r = true ∧ r ≠ "") ∧
    (∀ promptText context modelPreference outs r c,
      (∀ o ∈ outs, GoogleLLMService.outcomeGood o) →
      GoogleLLMService.generateResponse promptText context modelPreference outs =
        .ok r c →
      trimmedB r = true ∧ r ≠ "") ∧
    (∀ text targetLanguage sourceLanguage modelPreference outs r c,
      (∀ o ∈ outs, QwenLLMService.outcomeGood o) →
      QwenLLMService.translate text targetLanguage sourceLanguage modelPreference
          outs = .ok r c →
      trimmedB r = true ∧ r ≠ "") ∧
    (∀ text analysisType modelPreference outs r c,
      (∀ o ∈ outs, QwenLLMService.outcomeGood o) →
      QwenLLMService.analyzeText text analysisType modelPreference outs = .ok r c →
      trimmedB r = true ∧ r ≠ "") ∧
    (∀ promptText context modelPreference outs r c,
      (∀ o ∈ outs, QwenLLMService.outcomeGood o) →
      QwenLLMService.generateResponse promptText context modelPreference outs =
        .ok r c →
      trimmedB r = true ∧ r ≠ "") := by
  refine ⟨?_, ?_, ?_, ?_, ?_, ?_, ?_, ?_, ?_⟩
  · intro text tl sl mp outcome r hg h
    exact oaFinishSpec _ outcome _ r (by decide) (by decide) hg h
  · intro text ty mp outcome r hg h
    by_cases h1 : ty = "summary"
    · subst h1
      exact oaFinishSpec _ outcome _ r (by decide) (by decide) hg h
    · by_cases h2 : ty = "keywords"
      · subst h2
        exact oaFinishSpec _ outcome _ r (by decide) (by decide) hg h
      · simp [OpenAILLMService.analyzeText, h1, h2] at h
  · intro p ctx mp outcome r hg h
    exact oaFinishSpec _ outcome _ r (by decide) (by decide) hg h
  · intro text tl sl mp outs r c hg h
    refine gFinishSpec _ _ r c (by decide) (by decide) ?_ h
    intro rr c0 hok
    exact googleRetryOkGood 1 outs 0 none rr c0 hg hok
  · intro text ty mp outs r c hg h
    by_cases h1 : ty = "summary"
    · subst h1
      refine gFinishSpec _ _ r c (by decide) (by decide) ?_ h
      intro rr c0 hok
      exact googleRetryOkGood 1 outs 0 none rr c0 hg hok
    · by_cases h2 : ty = "keywords"
      · subst h2
        refine gFinishSpec _ _ r c (by decide) (by decide) ?_ h
        intro rr c0 hok
        exact googleRetryOkGood 1 outs 0 none rr c0 hg hok
      · have b1 : (ty == "summary") = false := beq_eq_false_iff_ne.mpr h1
        have b2 : (ty == "keywords") = false := beq_eq_false_iff_ne.mpr h2
        have hl : GoogleLLMService.GEMINI_ANALYSIS_PROMPTS.lookup ty = none := by
          simp [GoogleLLMService.GEMINI_ANALYSIS_PROMPTS, List.lookup, b1, b2]
        simp [GoogleLLMService.analyzeText, hl] at h
  · intro p ctx mp outs r c hg h
    refine gFinishSpec _ _ r c (by decide) (by decide) ?_ h
    intro rr c0 hok
    exact googleRetryOkGood 1 outs 0 none rr c0 hg hok
  · intro text tl sl mp outs r c hg h
    refine qFinishSpec _ _ r c (by decide) (by decide) ?_ h
    intro rr c0 hok
    exact qwenRetryOkGood 1 outs 0 none rr c0 hg hok
  · intro text ty mp outs r c hg h
    by_cases h1 : ty = "summary"
    · subst h1
      refine qFinishSpec _ _ r c (by decide) (by decide) ?_ h
      intro rr c0 hok
      exact qwenRetryOkGood 1 outs 0 none rr c0 hg hok
    · by_cases h2 : ty = "keywords"
      · subst h2
        refine qFinishSpec _ _ r c (by decide) (by decide) ?_ h
        intro rr c0 hok
        exact qwenRetryOkGood 1 outs 0 none rr c0 hg hok
      · have b1 : (ty == "summary") = false := beq_eq_false_iff_ne.mpr h1
        have b2 : (ty == "keywords") = false := beq_eq_false_iff_ne.mpr h2
        have hl : QwenLLMService.QWEN_ANALYSIS_PROMPTS.lookup ty = none := by
          simp [QwenLLMService.QWEN_ANALYSIS_PROMPTS, List.lookup, b1, b2]
        simp [QwenLLMService.analyzeText, hl] at h
  · intro p ctx mp outs r c hg h
    refine qFinishSpec _ _ r c (by decide) (by decide) ?_ h
    intro rr c0 hok
    exact qwenRetryOkGood 1 outs 0 none rr c0 hg hok

/-- Witness for C7 (amended) on an OpenAI translation whose vendor text
carries surrounding whitespace. -/
theorem c7_witness :
    OpenAILLMService.outcomeGood (.completion (some " Bonjour ")) ∧
    (OpenAILLMService.translate "Hello" "French" "auto" none
      (.completion (some " Bonjour "))).result = .ok "Bonjour" ∧
    (trimmedB "Bonjour" = true ∧ ("Bonjour" : String) ≠ "") :=
  have hgood : OpenAILLMService.outcomeGood (.completion (some " Bonjour ")) :=
    Or.inr ⟨'B', by decide, by decide⟩
  ⟨hgood, rfl,
    c7_success_strings_trimmed.1 "Hello" "French" "auto" none
      (.completion (some " Bonjour ")) "Bonjour" hgood rfl⟩

/-- C7 counterexample: a successful vendor text of one space is truthy,
so `translate` strips it and returns the EMPTY string — the claim that
every success string is non-empty fails at this input. -/
theorem c7_counterexample :
    ¬ ∀ r : String,
        (OpenAILLMService.translate "Hello" "French" "auto" none
          (.completion (some " "))).result = .ok r → r ≠ "" := by
  intro h
  exact h "" rfl rfl

/-- C8: provider openai with a credential set (the adapter
constructed), `translate("Hello", "French")` issues exactly one vendor
call, whose system instruction contains `"French"` and whose user
message equals `"Hello"`, and returns the vendor text stripped of
surrounding whitespace. -/
theorem c8_openai_translate_hello_french (s : String) (hs : s ≠ "") :
    OpenAILLMService.translate "Hello" "French" "auto" none (.completion (some s)) =
      ⟨[⟨"gpt-3.5-turbo",
         [("system", OpenAILLMService.translateSystemMessage "auto" "French"),
          ("user", "Hello")], 250⟩],
        .ok (pyStrip s)⟩ ∧
    strHasSub (OpenAILLMService.translateSystemMessage "auto" "French") "French" = true := by
  constructor
  · simp [OpenAILLMService.translate, OpenAILLMService.finish, extractOrSentinel,
      OpenAILLMService.getModel, hs]
  · decide

/-- Witness for C8 at vendor text `" Bonjour "`. -/
theorem c8_witness :
    (" Bonjour " : String) ≠ "" ∧
    (OpenAILLMService.translate "Hello" "French" "auto" none
        (.completion (some " Bonjour ")) =
      ⟨[⟨"gpt-3.5-turbo",
         [("system", OpenAILLMService.translateSystemMessage "auto" "French"),
          ("user", "Hello")], 250⟩],
        .ok (pyStrip " Bonjour ")⟩ ∧
    strHasSub (OpenAILLMService.translateSystemMessage "auto" "French") "French" = true) ∧
    pyStrip " Bonjour " = "Bonjour" :=
  ⟨by decide, c8_openai_translate_hello_french " Bonjour " (by decide), by decide⟩

theorem pyTake_eq_empty (n : Nat) (s : String) (hn : n ≠ 0) :
    pyTake n s = "" ↔ s = "" := by
  obtain ⟨data⟩ := s
  unfold pyTake
  constructor
  · intro h
    have hd := string_mk_eq_empty _ h
    rw [List.take_eq_nil_iff] at hd
    rcases hd with h1 | h1
    · exact absurd h1 hn
    · rw [show data = [] from h1]
  · intro h
    have hd : data = [] := string_mk_eq_empty data h
    rw [show data = [] from hd, List.take_nil]

/-- C9: the OpenAI adapter silently truncates its inputs before the
vendor call.  `analyze_text` sends `text[:8000]` as the user message
(the final message of its one call) and its behaviour therefore
depends only on that 8000-character slice; `generate_response` with a
truthy context sends only `context[:4000]` inside the context system
message, and its behaviour depends only on that 4000-character
slice. -/
theorem c9_openai_truncation
    (text analysisType promptText c t1 t2 c1 c2 : String)
    (modelPreference : Option String) (outcome : OpenAILLMService.OAOutcome)
    (hty : analysisType = "summary" ∨ analysisType = "keywords")
    (hc : c ≠ "")
    (h8 : pyTake 8000 t1 = pyTake 8000 t2)
    (h4 : pyTake 4000 c1 = pyTake 4000 c2) :
    (∀ call ∈ (OpenAILLMService.analyzeText text analysisType modelPreference
        outcome).calls,
      call.messages.getLast? = some ("user", pyTake 8000 text)) ∧
    (∀ call ∈ (OpenAILLMService.generateResponse promptText (some c) modelPreference
        outcome).calls,
      ("system", "Consider the following context: " ++ pyTake 4000 c) ∈
        call.messages) ∧
    OpenAILLMService.analyzeText t1 analysisType modelPreference outcome =
      OpenAILLMService.analyzeText t2 analysisType modelPreference outcome ∧
    OpenAILLMService.generateResponse promptText (some c1) modelPreference outcome =
      OpenAILLMService.generateResponse promptText (some c2) modelPreference outcome := by
  refine ⟨?_, ?_, ?_, ?_⟩
  · intro call hmem
    rcases hty with rfl | rfl <;>
      cases outcome <;>
      simp [OpenAILLMService.analyzeText, OpenAILLMService.finish] at hmem <;>
      subst hmem <;> rfl
  · intro call hmem
    have htr : pyTruthy (some c) = true := by simp [pyTruthy, hc]
    cases outcome <;>
      simp [OpenAILLMService.generateResponse, OpenAILLMService.finish, htr] at hmem <;>
      subst hmem <;> simp
  · simp only [OpenAILLMService.analyzeText]
    rw [h8]
  · by_cases hc1 : c1 = ""
    · have hc2 : c2 = "" := by
        rw [← pyTake_eq_empty 4000 c2 (by omega), ← h4,
          pyTake_eq_empty 4000 c1 (by omega)]
        exact hc1
      rw [hc1, hc2]
    · have hc2 : c2 ≠ "" := by
        intro hk
        rw [← pyTake_eq_empty 4000 c2 (by omega)] at hk
        rw [← h4, pyTake_eq_empty 4000 c1 (by omega)] at hk
        exact hc1 hk
      have e1 : pyTruthy (some c1) = true := by simp [pyTruthy, hc1]
      have e2 : pyTruthy (some c2) = true := by simp [pyTruthy, hc2]
      simp only [OpenAILLMService.generateResponse, e1, e2, Option.getD_some, if_true]
      rw [h4]

/-- Witness for C9 at small concrete inputs. -/
theorem c9_witness :
    (("summary" : String) = "summary" ∨ ("summary" : String) = "keywords") ∧
    ("ctx" : String) ≠ "" ∧
    (∀ call ∈ (OpenAILLMService.analyzeText "doc" "summary" none
        (.completion (some "ok"))).calls,
      call.messages.getLast? = some ("user", pyTake 8000 "doc")) ∧
    (∀ call ∈ (OpenAILLMService.generateResponse "ask" (some "ctx") none
        (.completion (some "ok"))).calls,
      ("system", "Consider the following context: " ++ pyTake 4000 "ctx") ∈
        call.messages) :=
  have h := c9_openai_truncation "doc" "summary" "ask" "ctx" "t" "t" "c" "c" none
    (.completion (some "ok")) (Or.inl rfl) (by decide) rfl rfl
  ⟨Or.inl rfl, by decide, h.1, h.2.1⟩

end LLM
